import Mathlib

/-!
Verification of the Greaseweazle write-path core
(`scripts/greaseweazle/tools/write.py`, function `write_from_image`).

The Python code is shallowly embedded as follows.

* Machine numbers: the Python floats that carry timing information
  (`drive_ticks`, `factor`, the residual `rem`) are modelled as exact
  rationals; flux interval outputs (`int(round(y))`) are integers.
  Python 3 `round` rounds half to even, modelled by `pyRound`.
* The USB device is an oracle `Device`, giving for each n the capture
  returned by the n-th `read_track` call of the job; `seek`,
  `erase_track`, `write_track` and `read_track` calls are recorded in an
  event trace.
* The mutable loop state (number of reads so far, the verified and
  not-verified counters) is threaded explicitly as a `St` value, and the
  exception raised by `error.check` on a failed track is an
  `Except.error` carrying the failing cylinder and side.
-/

/-- Rounding to the nearest integer with ties to even, the behaviour of
Python 3 `round` as used by `int(round(y))` in `write_from_image`. -/
def pyRound (q : ℚ) : ℤ :=
  if q - ⌊q⌋ < 1/2 then ⌊q⌋
  else if 1/2 < q - ⌊q⌋ then ⌊q⌋ + 1
  else if ⌊q⌋ % 2 = 0 then ⌊q⌋ else ⌊q⌋ + 1

/-- The residual-carrying rate-conversion loop of `write_from_image`:

    rem = 0.0
    flux_list = []
    for x in flux.list:
        y = x * factor + rem
        val = int(round(y))
        rem = y - val
        flux_list.append(val)

`rateConvert factor xs rem` is the list built from inputs `xs` starting
with residual `rem`. -/
def rateConvert (factor : ℚ) : List ℚ → ℚ → List ℤ
  | [], _ => []
  | x :: xs, rem =>
    let y := x * factor + rem
    let val := pyRound y
    val :: rateConvert factor xs (y - val)

/-- The full conversion as performed per track, starting from `rem = 0.0`. -/
def rescale (xs : List ℚ) (factor : ℚ) : List ℤ :=
  rateConvert factor xs 0

/-- The IEEE-754 binary64 value of the Python literal `1.15`: the exact
significand is `round(1.15 * 2^52) = round(5179139571476070.4) =
5179139571476070`, so the float the program computes with is
`5179139571476070 / 2^52`, slightly below `23/20`.

On the all-ones input of ten intervals the binary64 loop coincides with
exact rational arithmetic at this factor: `1.0 * factor` is exact, every
residual satisfies `|rem| <= 1/2` so its numerator over `2^52` stays within
`2^51`, every sum `factor + rem` has numerator below
`5179139571476070 + 2^51 < 2^53`, and `y - val` subtracts a small exact
integer — each intermediate is an integer multiple of `2^-52` of magnitude
below `2^53`, hence exactly representable, and no floating-point rounding
ever occurs inside the loop. -/
def float115 : ℚ := 5179139571476070 / 4503599627370496

/-- A flux capture, as produced by `usb.read_track` or
`track.flux_for_writeout()`: the flux interval list, the list of
index-to-index gaps, and the terminate-at-index flag. -/
structure FluxCapture where
  list : List ℚ
  index_list : List ℚ
  terminate_at_index : Bool
deriving DecidableEq

/-- Modelled from the spec: `mean_index_time` (provided by the flux module,
which is not among the given source files) is the mean index-to-index
period of a capture, the average of its index gaps. -/
def FluxCapture.mean_index_time (c : FluxCapture) : ℚ :=
  c.index_list.sum / c.index_list.length

/-- Modelled from the spec: `scale` (provided by the flux module, which is
not among the given source files) rescales the timebase of a capture by a
factor, multiplying every flux interval and every index gap by the factor. -/
def FluxCapture.scale (c : FluxCapture) (f : ℚ) : FluxCapture :=
  { c with
    list := c.list.map (fun x => x * f)
    index_list := c.index_list.map (fun x => x * f) }

/-- The `verify` attribute of a Python track object: the attribute may be
missing altogether (accessing it raises `AttributeError`), may be `None`,
or may be a verifier object whose `verify_track` method is modelled as a
boolean function on the read-back capture. -/
inductive VerifyAttr where
  | undefined : VerifyAttr
  | isNone : VerifyAttr
  | verifier : (FluxCapture → Bool) → VerifyAttr

/-- Applying `verify_track` of the `verify` attribute (only reached by the
code when the attribute holds an actual verifier object). -/
def VerifyAttr.verify_track (v : VerifyAttr) (c : FluxCapture) : Bool :=
  match v with
  | .verifier f => f c
  | _ => false

/-- The track object returned by `image.get_track`: its write-out capture,
its `verify` attribute and its `splice` count. -/
structure TrackContent where
  flux_for_writeout : FluxCapture
  verify : VerifyAttr
  splice : ℕ

/-- Relevant command-line arguments of the write tool. -/
structure Args where
  scyl : ℕ
  ecyl : ℕ
  nr_sides : ℕ
  double_step : Bool
  erase_empty : Bool
  no_verify : Bool

/-- The device oracle: the capture returned by the n-th `usb.read_track`
call of the job (calls are numbered from 0 in call order). -/
def Device : Type := ℕ → FluxCapture

/-- The image collaborator: `image.get_track(cyl, side)`. -/
def Image : Type := ℕ → ℕ → Option TrackContent

/-- One observable device command issued by `write_from_image`. -/
inductive Event where
  | readTrack : ℕ → Event
  | seek : ℕ → ℕ → Event
  | eraseTrack : ℚ → Event
  | writeTrack : List ℤ → Bool → Event
deriving DecidableEq

/-- The mutable state threaded through the job: how many `read_track`
calls happened so far, and the two summary counters. -/
structure St where
  nreads : ℕ
  verified_count : ℕ
  not_verified_count : ℕ
deriving DecidableEq

/-- A `usb.read_track(revs)` call: returns the next oracle capture,
records the command, and advances the read counter. -/
def read_track (dev : Device) (revs : ℕ) (s : St) : FluxCapture × List Event × St :=
  (dev s.nreads, [Event.readTrack revs], { s with nreads := s.nreads + 1 })

/-- The `no_verify` computation of the retry loop body:

    try:
        no_verify = args.no_verify or track.verify is None
    except AttributeError: # track.verify undefined
        no_verify = True

A missing `verify` attribute raises `AttributeError`, which is caught and
treated like a disabled verify. -/
def noVerifyFor (no_verify_flag : Bool) (v : VerifyAttr) : Bool :=
  no_verify_flag ||
    match v with
    | .undefined => true
    | .isNone => true
    | .verifier _ => false

/-- The read-back verification step of one retry iteration:

    v_revs = 1 if track.splice == 0 else 2
    v_flux = usb.read_track(v_revs)
    v_flux.scale(flux.mean_index_time / v_flux.mean_index_time)
    verified = track.verify.verify_track(v_flux)
-/
def verifyStep (dev : Device) (track : TrackContent) (flux : FluxCapture) (s : St) :
    Bool × List Event × St :=
  let v_revs := if track.splice = 0 then 1 else 2
  let p := read_track dev v_revs s
  let v_flux := p.1.scale (flux.mean_index_time / p.1.mean_index_time)
  (track.verify.verify_track v_flux, p.2.1, p.2.2)

/-- The retry loop `for retry in range(3)` of `write_from_image`, recursing
over the list of remaining retry indices. Returns the final value of the
`verified` flag, the events issued, and the resulting state. -/
def attemptLoop (dev : Device) (nv : Bool) (track : TrackContent) (flux : FluxCapture)
    (flux_list : List ℤ) : List ℕ → St → Bool × List Event × St
  | [], s => (false, [], s)
  | _ :: retries, s =>
    let ev := Event.writeTrack flux_list flux.terminate_at_index
    if noVerifyFor nv track.verify then
      (true, [ev], { s with not_verified_count := s.not_verified_count + 1 })
    else
      let q := verifyStep dev track flux s
      if q.1 then
        (true, ev :: q.2.1, { q.2.2 with verified_count := q.2.2.verified_count + 1 })
      else
        let r := attemptLoop dev nv track flux flux_list retries q.2.2
        (r.1, ev :: q.2.1 ++ r.2.1, r.2.2)

/-- The body of the double loop of `write_from_image` for one
`(cyl, side)` pair: skip, or seek-and-erase, or seek, rate-convert and run
the write/verify retry loop; a failed track raises (modelled as
`Except.error (cyl, side)`, from `error.check`). -/
def processPosition (dev : Device) (args : Args) (drive_ticks : ℚ) (image : Image)
    (cyl side : ℕ) (s : St) : List Event × Except (ℕ × ℕ) St :=
  match image cyl side with
  | Option.none =>
    if args.erase_empty then
      ([Event.seek (if args.double_step then cyl * 2 else cyl) side,
        Event.eraseTrack (drive_ticks * 1.1)], Except.ok s)
    else ([], Except.ok s)
  | Option.some track =>
    let flux := track.flux_for_writeout
    let factor := drive_ticks / flux.index_list.getD 0 0
    let flux_list := rescale flux.list factor
    let r := attemptLoop dev args.no_verify track flux flux_list (List.range 3) s
    (Event.seek (if args.double_step then cyl * 2 else cyl) side :: r.2.1,
     if r.1 then Except.ok r.2.2 else Except.error (cyl, side))

/-- The inner loop `for side in range(0, args.nr_sides)`, stopped short by
a raised track failure. -/
def sideLoop (dev : Device) (args : Args) (drive_ticks : ℚ) (image : Image) (cyl : ℕ) :
    List ℕ → St → List Event × Except (ℕ × ℕ) St
  | [], s => ([], Except.ok s)
  | side :: rest, s =>
    let r := processPosition dev args drive_ticks image cyl side s
    match r.2 with
    | Except.error e => (r.1, Except.error e)
    | Except.ok s1 =>
      let r2 := sideLoop dev args drive_ticks image cyl rest s1
      (r.1 ++ r2.1, r2.2)

/-- The outer loop `for cyl in range(args.scyl, args.ecyl+1)`, stopped
short by a raised track failure. -/
def cylLoop (dev : Device) (args : Args) (drive_ticks : ℚ) (image : Image) :
    List ℕ → St → List Event × Except (ℕ × ℕ) St
  | [], s => ([], Except.ok s)
  | cyl :: rest, s =>
    let r := sideLoop dev args drive_ticks image cyl (List.range args.nr_sides) s
    match r.2 with
    | Except.error e => (r.1, Except.error e)
    | Except.ok s1 =>
      let r2 := cylLoop dev args drive_ticks image rest s1
      (r.1 ++ r2.1, r2.2)

/-- The whole of `write_from_image`: calibrate `drive_ticks` from one
two-revolution capture, then run the cylinder/side loops with that value. -/
def write_from_image (dev : Device) (args : Args) (image : Image) :
    List Event × Except (ℕ × ℕ) St :=
  let p := read_track dev 2 ⟨0, 0, 0⟩
  let drive_ticks := (p.1.index_list.getD 0 0 + p.1.index_list.getD 1 0) / 2
  let r := cylLoop dev args drive_ticks image
    (List.range' args.scyl (args.ecyl + 1 - args.scyl)) p.2.2
  (p.2.1 ++ r.1, r.2)

/-- Recogniser for write commands in a trace. -/
def isWriteEvent : Event → Bool
  | .writeTrack _ _ => true
  | _ => false

/-- A concrete write-out capture used in witnesses: intervals `[1, 2]`,
both index gaps `4`, terminating at index. -/
def c0 : FluxCapture := ⟨[1, 2], [4, 4], true⟩

/-- A concrete capture returned by the device oracle in witnesses. -/
def devCapture : FluxCapture := ⟨[1], [2, 2], false⟩

/-- A device oracle answering every read with `devCapture`. -/
def dev0 : Device := fun _ => devCapture

/-- Arguments: one cylinder, one side, no double step, no erase of empty
tracks, verification enabled. -/
def args0 : Args := ⟨0, 0, 1, false, false, false⟩

/-- Arguments like `args0` but with verification globally disabled. -/
def argsNV : Args := ⟨0, 0, 1, false, false, true⟩

/-- A track whose verifier accepts every capture. -/
def track0 : TrackContent := ⟨c0, VerifyAttr.verifier (fun _ => true), 0⟩

/-- A track whose verifier rejects every capture. -/
def trackF : TrackContent := ⟨c0, VerifyAttr.verifier (fun _ => false), 0⟩

/-- A track whose `verify` attribute is `None`. -/
def trackN : TrackContent := ⟨c0, VerifyAttr.isNone, 0⟩

/-- A track without a `verify` attribute. -/
def trackU : TrackContent := ⟨c0, VerifyAttr.undefined, 0⟩

/-- An image with `track0` everywhere. -/
def image0 : Image := fun _ _ => Option.some track0

/-- An image with `trackF` everywhere. -/
def imageF : Image := fun _ _ => Option.some trackF

/-- An image with `trackN` everywhere. -/
def imageN : Image := fun _ _ => Option.some trackN

/-- An image with `trackU` everywhere. -/
def imageU : Image := fun _ _ => Option.some trackU

/-- An image with no content anywhere. -/
def imageE : Image := fun _ _ => Option.none

theorem pyRound_close (q : ℚ) : |q - (pyRound q : ℚ)| ≤ 1/2 := by
  have h0 : (⌊q⌋ : ℚ) ≤ q := Int.floor_le q
  have h1 : q < ⌊q⌋ + 1 := Int.lt_floor_add_one q
  unfold pyRound
  split_ifs with hlt hgt hev
  · rw [abs_of_nonneg (by linarith)]
    linarith
  · push_cast
    rw [abs_of_nonpos (by linarith)]
    linarith
  · have he : q - ⌊q⌋ = 1/2 := le_antisymm (not_lt.mp hgt) (not_lt.mp hlt)
    rw [abs_of_nonneg (by linarith)]
    linarith
  · have he : q - ⌊q⌋ = 1/2 := le_antisymm (not_lt.mp hgt) (not_lt.mp hlt)
    push_cast
    rw [abs_of_nonpos (by linarith)]
    linarith

theorem rateConvert_take (f : ℚ) (xs : List ℚ) : ∀ (rem : ℚ) (k : ℕ),
    (rateConvert f xs rem).take k = rateConvert f (xs.take k) rem := by
  induction xs with
  | nil => intro rem k; simp [rateConvert]
  | cons x xs ih =>
    intro rem k
    cases k with
    | zero => simp [rateConvert]
    | succ k => simp [rateConvert, ih]

theorem rateConvert_sum (f : ℚ) (xs : List ℚ) : ∀ rem : ℚ, |rem| ≤ 1/2 →
    |(((rateConvert f xs rem).sum : ℤ) : ℚ) - (f * xs.sum + rem)| ≤ 1/2 := by
  induction xs with
  | nil =>
    intro rem h
    simpa [rateConvert, abs_sub_comm] using h
  | cons x xs ih =>
    intro rem _
    have hr := pyRound_close (x * f + rem)
    have ih2 := ih (x * f + rem - pyRound (x * f + rem)) hr
    simp only [rateConvert, List.sum_cons]
    rw [Int.cast_add]
    have e :
        (pyRound (x * f + rem) : ℚ) +
            (((rateConvert f xs (x * f + rem - pyRound (x * f + rem))).sum : ℤ) : ℚ) -
            (f * (x + xs.sum) + rem) =
          (((rateConvert f xs (x * f + rem - pyRound (x * f + rem))).sum : ℤ) : ℚ) -
            (f * xs.sum + (x * f + rem - (pyRound (x * f + rem) : ℚ))) := by
      ring
    rw [e]
    exact ih2

/-- C1: for every input sequence of intervals and every strictly positive
factor, the residual-carrying rate converter keeps every prefix of the
output within one tick of the ideally scaled prefix:
`|sum(output[0..k]) - f * sum(input[0..k])| < 1` for every prefix length `k`. -/
theorem rate_converter_prefix_drift (xs : List ℚ) (f : ℚ) (h : 0 < f) (k : ℕ) :
    |((((rescale xs f).take k).sum : ℤ) : ℚ) - f * (xs.take k).sum| < 1 := by
  have h1 := rateConvert_sum f (xs.take k) 0 (by norm_num)
  rw [rescale, rateConvert_take]
  have h2 : |(((rateConvert f (xs.take k) 0).sum : ℤ) : ℚ) - f * (xs.take k).sum| ≤ 1/2 := by
    simpa using h1
  linarith [h2]

/-- Witness for C1 at a concrete input. -/
theorem rate_converter_prefix_drift_witness :
    |((((rescale [1, 2, 3] (1/2)).take 2).sum : ℤ) : ℚ) -
        (1/2) * (([(1 : ℚ), 2, 3].take 2)).sum| < 1 :=
  rate_converter_prefix_drift [1, 2, 3] (1/2) (by norm_num) 2

/-- For contrast only: in idealized exact arithmetic, with the factor
exactly `23/20`, the tenth intermediate value is exactly `1.5`, the tie
rounds up, and the run yields `[1,1,1,2,1,1,1,1,1,2]` with sum `12`. The
program does not compute with `23/20` (see `float115`), so this outcome is
never observed. -/
theorem rate_converter_example_ideal :
    rescale [1, 1, 1, 1, 1, 1, 1, 1, 1, 1] (23/20) = [1, 1, 1, 2, 1, 1, 1, 1, 1, 2] ∧
    (rescale [1, 1, 1, 1, 1, 1, 1, 1, 1, 1] (23/20)).sum = 12 := by
  have h :
      rescale [1, 1, 1, 1, 1, 1, 1, 1, 1, 1] (23/20) = [1, 1, 1, 2, 1, 1, 1, 1, 1, 2] := by
    norm_num [rescale, rateConvert, pyRound]
  exact ⟨h, by rw [h]; norm_num⟩

theorem float115_run :
    rescale [1, 1, 1, 1, 1, 1, 1, 1, 1, 1] float115 = [1, 1, 1, 2, 1, 1, 1, 1, 1, 1] := by
  norm_num [rescale, rateConvert, pyRound, float115]

/-- C2, counterexample: on input `[1,1,1,1,1,1,1,1,1,1]` the program —
whose factor `1.15` is the binary64 value `float115`, and whose loop on
this input is exact (see `float115`) — does not produce the claimed
`[1,1,1,2,1,1,1,1,1,2]`: the tenth intermediate value is
`1.5 - 2^-50`, not a tie, and rounds down. -/
theorem rate_converter_example_counterexample :
    rescale [1, 1, 1, 1, 1, 1, 1, 1, 1, 1] float115 ≠ [1, 1, 1, 2, 1, 1, 1, 1, 1, 2] := by
  rw [float115_run]
  decide

/-- C2, amended: on input `[1,1,1,1,1,1,1,1,1,1]` with factor `1.15` —
that is, with the binary64 value `float115 = 5179139571476070 / 2^52` the
program actually computes with — the converter produces exactly
`[1,1,1,2,1,1,1,1,1,1]`, whose sum is `11`. -/
theorem rate_converter_example_amended :
    rescale [1, 1, 1, 1, 1, 1, 1, 1, 1, 1] float115 = [1, 1, 1, 2, 1, 1, 1, 1, 1, 1] ∧
    (rescale [1, 1, 1, 1, 1, 1, 1, 1, 1, 1] float115).sum = 11 :=
  ⟨float115_run, by rw [float115_run]; norm_num⟩

theorem range3 : List.range 3 = [0, 1, 2] := rfl

theorem verifyStep_events (dev : Device) (track : TrackContent) (flux : FluxCapture)
    (s : St) :
    (verifyStep dev track flux s).2.1 =
      [Event.readTrack (if track.splice = 0 then 1 else 2)] := rfl

theorem verifyStep_state (dev : Device) (track : TrackContent) (flux : FluxCapture)
    (s : St) :
    (verifyStep dev track flux s).2.2 = { s with nreads := s.nreads + 1 } := rfl

theorem attemptLoop_write_events (dev : Device) (nv : Bool) (track : TrackContent)
    (flux : FluxCapture) (flux_list : List ℤ) :
    ∀ (retries : List ℕ) (s : St) (l : List ℤ) (t : Bool),
      Event.writeTrack l t ∈ (attemptLoop dev nv track flux flux_list retries s).2.1 →
      l = flux_list ∧ t = flux.terminate_at_index := by
  intro retries
  induction retries with
  | nil => intro s l t h; simp [attemptLoop] at h
  | cons r retries ih =>
    intro s l t h
    cases hb : noVerifyFor nv track.verify with
    | true => simpa [attemptLoop, hb] using h
    | false =>
      cases hq : (verifyStep dev track flux s).1 with
      | true => simpa [attemptLoop, hb, hq, verifyStep_events] using h
      | false =>
        simp only [attemptLoop, hb, hq, verifyStep_events, verifyStep_state] at h
        simp only [Bool.false_eq_true, if_false, List.cons_append, List.singleton_append,
          List.mem_cons] at h
        rcases h with h | h | h
        · simpa using h
        · simp at h
        · exact ih _ _ _ h

theorem attemptLoop_read_events (dev : Device) (nv : Bool) (track : TrackContent)
    (flux : FluxCapture) (flux_list : List ℤ) :
    ∀ (retries : List ℕ) (s : St) (r : ℕ),
      Event.readTrack r ∈ (attemptLoop dev nv track flux flux_list retries s).2.1 →
      r = if track.splice = 0 then 1 else 2 := by
  intro retries
  induction retries with
  | nil => intro s r h; simp [attemptLoop] at h
  | cons a retries ih =>
    intro s r h
    cases hb : noVerifyFor nv track.verify with
    | true => simp [attemptLoop, hb] at h
    | false =>
      cases hq : (verifyStep dev track flux s).1 with
      | true => simpa [attemptLoop, hb, hq, verifyStep_events] using h
      | false =>
        simp only [attemptLoop, hb, hq, verifyStep_events, verifyStep_state] at h
        simp only [Bool.false_eq_true, if_false, List.cons_append, List.singleton_append,
          List.mem_cons] at h
        rcases h with h | h | h
        · simp at h
        · simpa using h
        · exact ih _ _ h

theorem attemptLoop_write_count (dev : Device) (nv : Bool) (track : TrackContent)
    (flux : FluxCapture) (flux_list : List ℤ) :
    ∀ (retries : List ℕ) (s : St),
      ((attemptLoop dev nv track flux flux_list retries s).2.1.countP isWriteEvent) ≤
        retries.length := by
  intro retries
  induction retries with
  | nil => intro s; simp [attemptLoop]
  | cons a retries ih =>
    intro s
    cases hb : noVerifyFor nv track.verify with
    | true => simp [attemptLoop, hb, List.countP_cons, isWriteEvent]
    | false =>
      cases hq : (verifyStep dev track flux s).1 with
      | true =>
        simp [attemptLoop, hb, hq, verifyStep_events, List.countP_cons, isWriteEvent]
      | false =>
        simp only [attemptLoop, hb, hq, verifyStep_events, verifyStep_state,
          Bool.false_eq_true, if_false, List.cons_append, List.singleton_append,
          List.countP_cons, List.length_cons]
        have h2 := ih { s with nreads := s.nreads + 1 }
        simp [isWriteEvent]
        omega

/-- C3: the job starts with a single two-revolution calibration capture,
before any seek or write; `drive_ticks` is the average of the first two
index gaps of that capture; and the entire remainder of the job is the
cylinder/side loop run with that single fixed `drive_ticks` value. -/
theorem calibration_once (dev : Device) (args : Args) (image : Image) :
    write_from_image dev args image =
      (Event.readTrack 2 ::
        (cylLoop dev args (((dev 0).index_list.getD 0 0 + (dev 0).index_list.getD 1 0) / 2)
          image (List.range' args.scyl (args.ecyl + 1 - args.scyl)) ⟨1, 0, 0⟩).1,
       (cylLoop dev args (((dev 0).index_list.getD 0 0 + (dev 0).index_list.getD 1 0) / 2)
          image (List.range' args.scyl (args.ecyl + 1 - args.scyl)) ⟨1, 0, 0⟩).2) := rfl

/-- C4: every `write_track` command issued for a track carries the
interval list rescaled by `drive_ticks / capture.index_list[0]`, the raw
first index gap of that track's own write-out capture. -/
theorem write_factor_first_index_gap (dev : Device) (args : Args) (drive_ticks : ℚ)
    (image : Image) (cyl side : ℕ) (s : St) (track : TrackContent)
    (h : image cyl side = Option.some track) (l : List ℤ) (t : Bool)
    (hmem : Event.writeTrack l t ∈ (processPosition dev args drive_ticks image cyl side s).1) :
    l = rescale track.flux_for_writeout.list
        (drive_ticks / track.flux_for_writeout.index_list.getD 0 0) := by
  simp only [processPosition, h] at hmem
  rcases List.mem_cons.mp hmem with h1 | h1
  · simp at h1
  · exact (attemptLoop_write_events dev args.no_verify track track.flux_for_writeout
      _ _ _ _ _ h1).1

/-- Witness for C4 at a concrete input. -/
theorem write_factor_first_index_gap_witness :
    ([0, 2] : List ℤ) = rescale track0.flux_for_writeout.list
      (2 / track0.flux_for_writeout.index_list.getD 0 0) :=
  write_factor_first_index_gap dev0 argsNV 2 image0 0 0 ⟨0, 0, 0⟩ track0 rfl [0, 2] true
    (by norm_num [processPosition, image0, track0, c0, range3, attemptLoop, noVerifyFor,
      argsNV, rescale, rateConvert, pyRound])

/-- C5: a position with no image content is skipped outright when erase-empty
is disabled (no commands, state unchanged), and when erase-empty is enabled
it is seeked and erased with duration exactly `drive_ticks * 1.1`, with no
write, no read-back, and both counters unchanged. -/
theorem empty_track_handling (dev : Device) (args : Args) (drive_ticks : ℚ)
    (image : Image) (cyl side : ℕ) (s : St) (h : image cyl side = Option.none) :
    (args.erase_empty = false →
      processPosition dev args drive_ticks image cyl side s = ([], Except.ok s)) ∧
    (args.erase_empty = true →
      processPosition dev args drive_ticks image cyl side s =
        ([Event.seek (if args.double_step then cyl * 2 else cyl) side,
          Event.eraseTrack (drive_ticks * 1.1)], Except.ok s)) := by
  constructor <;> intro he <;> simp [processPosition, h, he]

/-- Witness for C5 at a concrete input. -/
theorem empty_track_handling_witness :
    processPosition dev0 args0 2 imageE 0 0 ⟨0, 0, 0⟩ = ([], Except.ok ⟨0, 0, 0⟩) :=
  (empty_track_handling dev0 args0 2 imageE 0 0 ⟨0, 0, 0⟩ rfl).1 rfl

/-- C6: every read-back verification capture requests 1 revolution when the
track's splice count is 0, and 2 revolutions otherwise. -/
theorem verify_revolutions (dev : Device) (nv : Bool) (track : TrackContent)
    (flux : FluxCapture) (flux_list : List ℤ) (retries : List ℕ) (s : St) (r : ℕ)
    (h : Event.readTrack r ∈ (attemptLoop dev nv track flux flux_list retries s).2.1) :
    r = if track.splice = 0 then 1 else 2 :=
  attemptLoop_read_events dev nv track flux flux_list retries s r h

/-- Witness for C6 at a concrete input. -/
theorem verify_revolutions_witness : (1 : ℕ) = if trackF.splice = 0 then 1 else 2 :=
  verify_revolutions dev0 false trackF c0 [] [0] ⟨0, 0, 0⟩ 1
    (by norm_num [attemptLoop, noVerifyFor, trackF, verifyStep, read_track, c0,
      dev0, devCapture, FluxCapture.scale, FluxCapture.mean_index_time,
      VerifyAttr.verify_track])

/-- C7: when a verifier is present, the verification decision is exactly the
boolean the verifier returns on the read-back capture scaled in place by
`flux.mean_index_time / v_flux.mean_index_time`, and one retry iteration
succeeds precisely when that decision is true. -/
theorem verify_scaled_capture (dev : Device) (track : TrackContent) (flux : FluxCapture)
    (s : St) (f : FluxCapture → Bool) (h : track.verify = VerifyAttr.verifier f) :
    ((verifyStep dev track flux s).1 =
      f ((dev s.nreads).scale (flux.mean_index_time / (dev s.nreads).mean_index_time))) ∧
    ∀ (flux_list : List ℤ) (a : ℕ) (retries : List ℕ),
      (attemptLoop dev false track flux flux_list (a :: retries) s).1 =
        ((verifyStep dev track flux s).1 ||
          (attemptLoop dev false track flux flux_list retries
            (verifyStep dev track flux s).2.2).1) := by
  constructor
  · simp [verifyStep, read_track, h, VerifyAttr.verify_track]
  · intro flux_list a retries
    have hnv : noVerifyFor false track.verify = false := by simp [noVerifyFor, h]
    cases hq : (verifyStep dev track flux s).1 <;> simp [attemptLoop, hnv, hq]

/-- Witness for C7 at a concrete input. -/
theorem verify_scaled_capture_witness :
    (verifyStep dev0 track0 c0 ⟨0, 0, 0⟩).1 =
      (fun _ => true)
        ((dev0 0).scale (c0.mean_index_time / (dev0 0).mean_index_time)) :=
  (verify_scaled_capture dev0 track0 c0 ⟨0, 0, 0⟩ (fun _ => true) rfl).1

/-- C8: a written track issues at most 3 write attempts; a track failure is
reported with the failing cylinder and side; a failed position aborts the
side loop and the cylinder loop immediately, so no later position is
processed; and a track whose retry loop ends with `verified` still false
(all three verification attempts failed) does raise that fatal failure. -/
theorem retry_bound_and_fatal_abort (dev : Device) (args : Args) (drive_ticks : ℚ)
    (image : Image) (cyl side : ℕ) (s : St) :
    ((processPosition dev args drive_ticks image cyl side s).1.countP isWriteEvent ≤ 3) ∧
    (∀ e, (processPosition dev args drive_ticks image cyl side s).2 = Except.error e →
      e = (cyl, side)) ∧
    (∀ e rest, (processPosition dev args drive_ticks image cyl side s).2 = Except.error e →
      sideLoop dev args drive_ticks image cyl (side :: rest) s =
        ((processPosition dev args drive_ticks image cyl side s).1, Except.error e)) ∧
    (∀ e rest,
      (sideLoop dev args drive_ticks image cyl (List.range args.nr_sides) s).2 =
        Except.error e →
      cylLoop dev args drive_ticks image (cyl :: rest) s =
        ((sideLoop dev args drive_ticks image cyl (List.range args.nr_sides) s).1,
         Except.error e)) ∧
    (∀ track, image cyl side = Option.some track →
      (attemptLoop dev args.no_verify track track.flux_for_writeout
        (rescale track.flux_for_writeout.list
          (drive_ticks / track.flux_for_writeout.index_list.getD 0 0))
        (List.range 3) s).1 = false →
      (processPosition dev args drive_ticks image cyl side s).2 =
        Except.error (cyl, side)) := by
  refine ⟨?_, ?_, ?_, ?_, ?_⟩
  · rcases himg : image cyl side with _ | track
    · cases he : args.erase_empty <;> simp [processPosition, himg, he, isWriteEvent]
    · have h2 := attemptLoop_write_count dev args.no_verify track track.flux_for_writeout
        (rescale track.flux_for_writeout.list
          (drive_ticks / track.flux_for_writeout.index_list.getD 0 0)) (List.range 3) s
      simp only [List.length_range] at h2
      simp only [processPosition, himg, List.countP_cons]
      have h3 : isWriteEvent
          (Event.seek (if args.double_step then cyl * 2 else cyl) side) = false := rfl
      rw [h3]
      simp only [Bool.false_eq_true, if_false, add_zero]
      exact h2
  · intro e he
    rcases himg : image cyl side with _ | track
    · cases hee : args.erase_empty <;> simp [processPosition, himg, hee] at he
    · simp only [processPosition, himg] at he
      split at he
      · exact absurd he (by simp)
      · exact (Except.error.inj he).symm
  · intro e rest he
    simp [sideLoop, he]
  · intro e rest he
    simp [cylLoop, he]
  · intro track htr hfalse
    simp only [processPosition, htr]
    rw [hfalse]
    simp

/-- Witness for C8 at a concrete input. -/
theorem retry_bound_and_fatal_abort_witness :
    ((processPosition dev0 args0 2 imageF 0 0 ⟨0, 0, 0⟩).1.countP isWriteEvent ≤ 3) ∧
    ((0, 0) : ℕ × ℕ) = (0, 0) ∧
    sideLoop dev0 args0 2 imageF 0 [0] ⟨0, 0, 0⟩ =
      ((processPosition dev0 args0 2 imageF 0 0 ⟨0, 0, 0⟩).1, Except.error (0, 0)) ∧
    cylLoop dev0 args0 2 imageF [0] ⟨0, 0, 0⟩ =
      ((sideLoop dev0 args0 2 imageF 0 (List.range args0.nr_sides) ⟨0, 0, 0⟩).1,
       Except.error (0, 0)) ∧
    (processPosition dev0 args0 2 imageF 0 0 ⟨0, 0, 0⟩).2 = Except.error (0, 0) := by
  obtain ⟨h1, h2, h3, h4, h5⟩ := retry_bound_and_fatal_abort dev0 args0 2 imageF 0 0 ⟨0, 0, 0⟩
  have hattempt : (attemptLoop dev0 args0.no_verify trackF trackF.flux_for_writeout
      (rescale trackF.flux_for_writeout.list
        (2 / trackF.flux_for_writeout.index_list.getD 0 0))
      (List.range 3) ⟨0, 0, 0⟩).1 = false := by
    norm_num [trackF, c0, range3, attemptLoop, noVerifyFor, args0, verifyStep,
      read_track, dev0, devCapture, FluxCapture.scale, FluxCapture.mean_index_time,
      VerifyAttr.verify_track]
  have hfail : (processPosition dev0 args0 2 imageF 0 0 ⟨0, 0, 0⟩).2 =
      Except.error ((0, 0) : ℕ × ℕ) := h5 trackF rfl hattempt
  have hfail2 : (sideLoop dev0 args0 2 imageF 0 (List.range args0.nr_sides) ⟨0, 0, 0⟩).2 =
      Except.error ((0, 0) : ℕ × ℕ) := by
    have : List.range args0.nr_sides = [0] := rfl
    rw [this]
    simp [sideLoop, hfail]
  exact ⟨h1, h2 (0, 0) hfail, h3 (0, 0) [] hfail, h4 (0, 0) [] hfail2, hfail⟩

/-- C9: with verification globally disabled or a `None` verifier, the track
gets exactly one write, is counted as not verified, succeeds, and leaves
the verified counter untouched. -/
theorem no_verify_single_write (dev : Device) (args : Args) (drive_ticks : ℚ)
    (image : Image) (cyl side : ℕ) (s : St) (track : TrackContent)
    (h : image cyl side = Option.some track)
    (hnv : args.no_verify = true ∨ track.verify = VerifyAttr.isNone) :
    processPosition dev args drive_ticks image cyl side s =
      ([Event.seek (if args.double_step then cyl * 2 else cyl) side,
        Event.writeTrack
          (rescale track.flux_for_writeout.list
            (drive_ticks / track.flux_for_writeout.index_list.getD 0 0))
          track.flux_for_writeout.terminate_at_index],
       Except.ok { s with not_verified_count := s.not_verified_count + 1 }) := by
  have hb : noVerifyFor args.no_verify track.verify = true := by
    rcases hnv with h1 | h1 <;> simp [noVerifyFor, h1]
  simp [processPosition, h, range3, attemptLoop, hb]

/-- Witness for C9 at a concrete input. -/
theorem no_verify_single_write_witness :
    processPosition dev0 args0 2 imageN 0 0 ⟨0, 0, 0⟩ =
      ([Event.seek (if args0.double_step then 0 * 2 else 0) 0,
        Event.writeTrack
          (rescale trackN.flux_for_writeout.list
            (2 / trackN.flux_for_writeout.index_list.getD 0 0))
          trackN.flux_for_writeout.terminate_at_index],
       Except.ok ⟨0, 0, 1⟩) :=
  no_verify_single_write dev0 args0 2 imageN 0 0 ⟨0, 0, 0⟩ trackN rfl (Or.inr rfl)

/-- C10: a track whose content object has no `verify` attribute at all is
treated exactly like a track without verification: the `AttributeError` is
caught, one write is issued, the track counts as not verified and the job
continues successfully. -/
theorem missing_verify_attribute (dev : Device) (args : Args) (drive_ticks : ℚ)
    (image : Image) (cyl side : ℕ) (s : St) (track : TrackContent)
    (h : image cyl side = Option.some track)
    (hu : track.verify = VerifyAttr.undefined) :
    processPosition dev args drive_ticks image cyl side s =
      ([Event.seek (if args.double_step then cyl * 2 else cyl) side,
        Event.writeTrack
          (rescale track.flux_for_writeout.list
            (drive_ticks / track.flux_for_writeout.index_list.getD 0 0))
          track.flux_for_writeout.terminate_at_index],
       Except.ok { s with not_verified_count := s.not_verified_count + 1 }) := by
  have hb : noVerifyFor args.no_verify track.verify = true := by
    simp [noVerifyFor, hu]
  simp [processPosition, h, range3, attemptLoop, hb]

/-- Witness for C10 at a concrete input. -/
theorem missing_verify_attribute_witness :
    processPosition dev0 args0 2 imageU 0 0 ⟨0, 0, 0⟩ =
      ([Event.seek (if args0.double_step then 0 * 2 else 0) 0,
        Event.writeTrack
          (rescale trackU.flux_for_writeout.list
            (2 / trackU.flux_for_writeout.index_list.getD 0 0))
          trackU.flux_for_writeout.terminate_at_index],
       Except.ok ⟨0, 0, 1⟩) :=
  missing_verify_attribute dev0 args0 2 imageU 0 0 ⟨0, 0, 0⟩ trackU rfl rfl
